import Mathlib

/-!
Shallow embedding of the `natsmicromw` Go package (NATS micro-service
middleware): header maps, the context-carrying request envelopes, the two
middleware chain builders, the error normalizer of `wrapContextHandler`,
the compression middleware, and a Go-slice-level model of the middleware
accumulation in `Service.WithMiddleware`.

Byte strings are modelled as `List Nat`; Go errors as the inductive
`GoErr`; the `context.Context` interface as the opaque value `GoContext`.
-/

namespace Natsmicromw

/-! ## Header maps (`nats.Header` / `micro.Headers`, a Go `map[string][]string`)

A Go map is modelled as an association list; a possibly-nil map as an
`Option` of one.  The methods below follow `nats.Header.Get/Set/Add/Del`
and `micro.Headers.Values`: case-sensitive keys, no canonicalisation. -/

abbrev HeaderMap := List (String × List String)

abbrev Headers := Option HeaderMap

/-- Go map read `m[k]`: the values stored at `k`, or `none` when absent. -/
def mapLookup : HeaderMap → String → Option (List String)
  | [], _ => none
  | (k', vs) :: rest, k => if k' = k then some vs else mapLookup rest k

/-- Go map write `m[k] = vs`: replace the entry for `k`, or insert it. -/
def mapSet : HeaderMap → String → List String → HeaderMap
  | [], k, vs => [(k, vs)]
  | (k', vs') :: rest, k, vs =>
      if k' = k then (k, vs) :: rest else (k', vs') :: mapSet rest k vs

/-- `nats.Header.Add`: `h[key] = append(h[key], value)`. -/
def mapAdd (m : HeaderMap) (k v : String) : HeaderMap :=
  mapSet m k ((mapLookup m k).getD [] ++ [v])

/-- Go `delete(m, k)`. -/
def mapDelete (m : HeaderMap) (k : String) : HeaderMap :=
  m.filter (fun e => e.1 ≠ k)

/-- `nats.Header.Get`: `""` on a nil map or an absent key, else the first
stored value (`Set`/`Add` never store an empty value list). -/
def headerGet (h : Headers) (k : String) : String :=
  match h with
  | none => ""
  | some m =>
    match mapLookup m k with
    | some vs => vs.headD ""
    | none => ""

/-- `micro.Headers.Values`: the raw value list `h[k]`; reading a nil Go map
yields the zero value, hence no values. -/
def headerValues (h : Headers) (k : String) : List String :=
  match h with
  | none => []
  | some m => (mapLookup m k).getD []

/-! ## Context values

`context.Context` is an opaque interface value here; distinct contexts are
distinguished by an identifier.  `contextBackground` models
`context.Background()`. -/

structure GoContext where
  id : Nat
deriving DecidableEq, Repr

def contextBackground : GoContext := ⟨0⟩

/-! ## `MicroRequest` (microrequest.go) and `MicroReply` (microreply.go) -/

/-- The `MicroRequest` envelope: subject, reply-to, headers, payload and the
attached context (microrequest.go). -/
structure MicroRequest where
  Subject : String
  Reply : String
  Headers : Headers
  Data : List Nat
  ctx : GoContext
deriving DecidableEq, Repr

/-- `MicroRequest.Context`: returns the attached message context. -/
def MicroRequest.Context (r : MicroRequest) : GoContext := r.ctx

/-- `MicroRequest.WithContext`: builds a new `MicroRequest` from the
receiver's `Subject`, `Reply`, `Headers` and `Data` fields and the given
context; the receiver is not written to (the Go method returns
`&MicroRequest{r.Subject, r.Reply, r.Headers, r.Data, ctx}`). -/
def MicroRequest.WithContext (r : MicroRequest) (ctx : GoContext) : MicroRequest :=
  ⟨r.Subject, r.Reply, r.Headers, r.Data, ctx⟩

/-- `MicroRequest.HeaderAdd`: when the header map is nil a fresh map is
allocated (`h = nats.Header{}`) before adding. -/
def MicroRequest.HeaderAdd (r : MicroRequest) (key value : String) : MicroRequest :=
  { r with Headers := some (mapAdd (r.Headers.getD []) key value) }

/-- `MicroRequest.HeaderSet`: when the header map is nil a fresh map is
allocated before setting. -/
def MicroRequest.HeaderSet (r : MicroRequest) (key value : String) : MicroRequest :=
  { r with Headers := some (mapSet (r.Headers.getD []) key [value]) }

/-- `MicroRequest.HeaderGet`: delegates to `nats.Header.Get`. -/
def MicroRequest.HeaderGet (r : MicroRequest) (key : String) : String :=
  headerGet r.Headers key

/-- `MicroRequest.HeaderValues`: delegates to `micro.Headers.Values`. -/
def MicroRequest.HeaderValues (r : MicroRequest) (key : String) : List String :=
  headerValues r.Headers key

/-- `MicroRequest.HeaderDel`: returns unchanged when the header map is nil,
otherwise deletes the key. -/
def MicroRequest.HeaderDel (r : MicroRequest) (key : String) : MicroRequest :=
  match r.Headers with
  | none => r
  | some m => { r with Headers := some (mapDelete m key) }

/-- The `MicroReply` envelope: headers and payload (microreply.go). -/
structure MicroReply where
  Headers : Headers
  Data : List Nat
deriving DecidableEq, Repr

/-- `MicroReply.HeaderAdd`: nil map is replaced by a fresh one before adding. -/
def MicroReply.HeaderAdd (r : MicroReply) (key value : String) : MicroReply :=
  { r with Headers := some (mapAdd (r.Headers.getD []) key value) }

/-- `MicroReply.HeaderSet`: nil map is replaced by a fresh one before setting. -/
def MicroReply.HeaderSet (r : MicroReply) (key value : String) : MicroReply :=
  { r with Headers := some (mapSet (r.Headers.getD []) key [value]) }

/-- `MicroReply.HeaderGet`: delegates to `nats.Header.Get`. -/
def MicroReply.HeaderGet (r : MicroReply) (key : String) : String :=
  headerGet r.Headers key

/-- `MicroReply.HeaderValues`: delegates to `micro.Headers.Values`. -/
def MicroReply.HeaderValues (r : MicroReply) (key : String) : List String :=
  headerValues r.Headers key

/-- `MicroReply.HeaderDel`: returns unchanged when the header map is nil. -/
def MicroReply.HeaderDel (r : MicroReply) (key : String) : MicroReply :=
  match r.Headers with
  | none => r
  | some m => { r with Headers := some (mapDelete m key) }

/-! ## The context-carrying `Request` (request.go)

`Request` embeds a `micro.Request` (here `MicroMsg`: the immutable view of
the transport message) together with a context. -/

/-- The embedded `micro.Request` message: subject, reply-to, headers, data. -/
structure MicroMsg where
  subject : String
  reply : String
  headers : Headers
  data : List Nat
deriving DecidableEq, Repr

/-- `Request` from request.go: an embedded `micro.Request` plus a context. -/
structure Request where
  request : MicroMsg
  ctx : GoContext
deriving DecidableEq, Repr

/-- `Request.Context`: returns the attached message context. -/
def Request.Context (r : Request) : GoContext := r.ctx

/-- `Request.WithContext`: `return &Request{r.Request, ctx}` — a new value
built from the receiver's embedded request and the given context; the
receiver is not written to. -/
def Request.WithContext (r : Request) (ctx : GoContext) : Request :=
  ⟨r.request, ctx⟩

/-! ## Go errors

The error universe relevant to this package: the structured
`*HandlerError` (fields `Description`, `Code`), plain `errors.New`
messages, and the sentinel and stream errors of the compression
middleware.  `GoErr.message` renders `err.Error()`:
`HandlerError.Error()` returns the description. -/

inductive GoErr where
  | handlerError (description code : String)
  | plain (msg : String)
  | unsupportedEncoding
  | gzipInvalidHeader
  | deflateCorrupt
deriving DecidableEq, Repr

/-- Rendering of `err.Error()` for each error in the universe. -/
def GoErr.message : GoErr → String
  | .handlerError d _ => d
  | .plain m => m
  | .unsupportedEncoding => "unsupported encoding"
  | .gzipInvalidHeader => "gzip: invalid header"
  | .deflateCorrupt => "flate: corrupt input"

/-! ## Go JSON encoding of `HandlerError`

`json.Marshal` on `HandlerError{Description, Code}` emits the fields in
struct order with no whitespace; the default Go encoder escapes `"`,
`\`, control characters, the HTML characters and U+2028/U+2029 inside
strings. -/

/-- Lowercase hexadecimal digit, as Go's JSON encoder emits. -/
def hexDigit (n : Nat) : Char :=
  if n < 10 then Char.ofNat (48 + n) else Char.ofNat (87 + n)

/-- Escaping of one character inside a Go JSON string literal. -/
def goJsonEscapeChar (c : Char) : List Char :=
  if c = '"' then ['\\', '"']
  else if c = '\\' then ['\\', '\\']
  else if c = '\n' then ['\\', 'n']
  else if c = '\r' then ['\\', 'r']
  else if c = '\t' then ['\\', 't']
  else if c = '<' ∨ c = '>' ∨ c = '&' ∨ c.toNat < 0x20 then
    ['\\', 'u', '0', '0', hexDigit (c.toNat / 16), hexDigit (c.toNat % 16)]
  else if c.toNat = 0x2028 ∨ c.toNat = 0x2029 then
    ['\\', 'u', '2', '0', '2', hexDigit (c.toNat % 16)]
  else [c]

/-- A Go JSON string literal: quoted and escaped. -/
def goJsonQuote (s : String) : String :=
  ⟨'"' :: (s.data.map goJsonEscapeChar).flatten ++ ['"']⟩

/-- `json.Marshal(&HandlerError{Description: d, Code: c})`: field order
`description` then `code`, no whitespace. -/
def marshalHandlerError (description code : String) : String :=
  "\x7b\"description\":" ++ goJsonQuote description ++
    ",\"code\":" ++ goJsonQuote code ++ "\x7d"

/-! ## Chain builder, plain flavor (natsmicromw.go, `wrapHandler`)

A plain `micro.Handler` neither returns a value nor fails; its observable
behavior is the sequence of effects it performs, modelled as a trace of
event labels. -/

/-- A `micro.Handler`, modelled by the trace of events its run emits. -/
abbrev Handler := MicroMsg → List Nat

/-- `MiddlewareFunc`: takes a `micro.Handler`, returns a `micro.Handler`. -/
abbrev MiddlewareFunc := Handler → Handler

/-- `wrapHandler`: starting from the terminal handler, the loop
`for i := len(mws) - 1; i >= 0; i--` wraps the accumulator with `mws[i]`,
i.e. a right-to-left fold. -/
def wrapHandler (handler : Handler) (mws : List MiddlewareFunc) : Handler :=
  mws.foldr (fun mw acc => mw acc) handler

theorem wrapHandler_nil (h : Handler) : wrapHandler h [] = h := rfl

theorem wrapHandler_cons (h : Handler) (mw : MiddlewareFunc) (mws : List MiddlewareFunc) :
    wrapHandler h (mw :: mws) = mw (wrapHandler h mws) := rfl

/-! ## Chain builder, context flavor (natsmicromw.go, `wrapContextHandler`)

A `ContextHandlerFunc` takes a `*Request` and returns an error; its run is
modelled by an event trace together with the returned error
(`none` = nil). -/

/-- `ContextHandlerFunc`: a `*Request` handler returning an error, with its
emitted event trace made observable. -/
abbrev ContextHandlerFunc := Request → List Nat × Option GoErr

/-- `ContextMiddlewareFunc`: takes a `ContextHandlerFunc` and returns a new
`ContextHandlerFunc`. -/
abbrev ContextMiddlewareFunc := ContextHandlerFunc → ContextHandlerFunc

/-- The fold inside `wrapContextHandler`: the loop
`for i := len(s.cmw) - 1; i >= 0; i--` wraps the accumulator with
`s.cmw[i]`, i.e. a right-to-left fold. -/
def chainContextMiddleware (cmws : List ContextMiddlewareFunc)
    (handler : ContextHandlerFunc) : ContextHandlerFunc :=
  cmws.foldr (fun mw acc => mw acc) handler

theorem chainContextMiddleware_nil (h : ContextHandlerFunc) :
    chainContextMiddleware [] h = h := rfl

theorem chainContextMiddleware_cons (h : ContextHandlerFunc)
    (mw : ContextMiddlewareFunc) (mws : List ContextMiddlewareFunc) :
    chainContextMiddleware (mw :: mws) h = mw (chainContextMiddleware mws h) := rfl

/-! ## `Service` and the context-handler dispatcher -/

/-- The dispatch-relevant state of a `Service` (natsmicromw.go): the
accumulated context middleware and the optional default context.  (The
underlying `micro.Service` handle and the plain middleware list play no
role in `wrapContextHandler`.) -/
structure Service where
  cmw : List ContextMiddlewareFunc
  defaultCtx : Option GoContext

/-- The context chosen by `wrapContextHandler`: the service's default
context if set, otherwise `context.Background()`. -/
def serviceContext (s : Service) : GoContext :=
  match s.defaultCtx with
  | some c => c
  | none => contextBackground

/-- What `req.Error(code, description, body)` delivers to the transport:
the three independent channels of the error-reporting path. -/
structure ErrorReport where
  code : String
  description : String
  body : String
deriving DecidableEq, Repr

/-- The error normalization inside `wrapContextHandler`: a `*HandlerError`
is used verbatim as its (description, code) pair; any other error is
wrapped as `{Description: err.Error(), Code: "500"}`. -/
def normalizeError : GoErr → String × String
  | .handlerError d c => (d, c)
  | e => (e.message, "500")

/-- `wrapContextHandler` (natsmicromw.go): builds the context, wraps the
terminal handler in the accumulated context middleware via the
right-to-left fold, invokes the chain, and — when the chain returns a
non-nil error — normalizes it and reports it through
`req.Error(code, description, marshalled-body)`. -/
def wrapContextHandler (s : Service) (handler : ContextHandlerFunc)
    (req : MicroMsg) : List Nat × Option ErrorReport :=
  let ctxReq : Request := ⟨req, serviceContext s⟩
  let wrappedCtxHandler := chainContextMiddleware s.cmw handler
  let r := wrappedCtxHandler ctxReq
  match r.2 with
  | none => (r.1, none)
  | some e =>
    let he := normalizeError e
    (r.1, some ⟨he.2, he.1, marshalHandlerError he.1 he.2⟩)

/-! ## Compression middleware (middleware/compression.go)

The middleware calls the Go standard library stream codecs
(`compress/gzip`, `compress/flate`) — external collaborators of this
repository.  They are modelled as executable injective framings: the
compressed form is a codec-specific magic header followed by the bytes,
and decoding fails (as `gzip.NewReader` / `flate` reads do on a corrupt
stream) exactly when the magic header is absent.  Everything the claims
use about the real codecs holds of the model: compress-then-decompress is
the identity, the two codecs' outputs are distinct, and garbage fails to
decode. -/

def HeaderAcceptEncoding : String := "accept-encoding"

def HeaderEncoding : String := "encoding"

/-- The initial value of the global `compressMin`: messages smaller than
this are not compressed. -/
def compressMin : Nat := 1000

def gzipMagic : List Nat := [0x1f, 0x8b]

def deflateMagic : List Nat := [0x78, 0x9c]

/-- Model of `compressGzip`: gzip-frame the bytes. -/
def compressGzip (data : List Nat) : List Nat := gzipMagic ++ data

/-- Model of `compressDeflate`: deflate-frame the bytes. -/
def compressDeflate (data : List Nat) : List Nat := deflateMagic ++ data

/-- Model of `decompressGzip`: a stream not carrying the gzip frame is
corrupt and fails to decode. -/
def decompressGzip (data : List Nat) : Except GoErr (List Nat) :=
  if data.take 2 = gzipMagic then .ok (data.drop 2) else .error .gzipInvalidHeader

/-- Model of `decompressDeflate`: a stream not carrying the deflate frame
is corrupt and fails to decode. -/
def decompressDeflate (data : List Nat) : Except GoErr (List Nat) :=
  if data.take 2 = deflateMagic then .ok (data.drop 2) else .error .deflateCorrupt

/-- `compressReply`: no compression below the global minimum size; else
compress per the requested compression type, replace the reply data and
set the reply's `encoding` header; an unrecognized or empty type leaves
the reply untouched (the Go `switch` has no default case). -/
def compressReply (cmin : Nat) (compression : String) (reply : MicroReply) :
    Except GoErr MicroReply :=
  if reply.Data.length < cmin then .ok reply
  else if compression ≠ "" then
    if compression = "gzip" then
      .ok (({ reply with Data := compressGzip reply.Data }).HeaderSet HeaderEncoding compression)
    else if compression = "deflate" then
      .ok (({ reply with Data := compressDeflate reply.Data }).HeaderSet HeaderEncoding compression)
    else .ok reply
  else .ok reply

/-- `readCompressedData`: dispatch on the declared encoding — `gzip` and
`deflate` decode, any other non-empty value is `ErrUnsupportedEncoding`,
empty passes the data through. -/
def readCompressedData (encoding : String) (data : List Nat) :
    Except GoErr (List Nat) :=
  if encoding = "gzip" then decompressGzip data
  else if encoding = "deflate" then decompressDeflate data
  else if encoding.length > 0 then .error .unsupportedEncoding
  else .ok data

/-- `decompressRequest`: decode the request data per its `encoding` header,
propagating any failure; on success store the decoded data back in the
request. -/
def decompressRequest (req : MicroRequest) : Except GoErr MicroRequest :=
  match readCompressedData (req.HeaderGet HeaderEncoding) req.Data with
  | .error e => .error e
  | .ok d => .ok { req with Data := d }

/-- `MicroHandlerFunc`: `func(*MicroRequest) (*MicroReply, error)`, with
the handler's emitted event trace made observable. -/
abbrev MicroHandlerFunc := MicroRequest → List Nat × Except GoErr MicroReply

/-- `CompressionMiddleware`: decompress the incoming request (propagating
failures without calling `next`), call the next link, then compress the
reply per the original request's `accept-encoding` header.  The global
minimum size is read fresh on each invocation and is the `cmin`
parameter here. -/
def CompressionMiddleware (cmin : Nat) (next : MicroHandlerFunc) : MicroHandlerFunc :=
  fun req =>
    match decompressRequest req with
    | .error e => ([], .error e)
    | .ok req' =>
      let r := next req'
      match r.2 with
      | .error e => (r.1, .error e)
      | .ok res =>
        match compressReply cmin (req'.HeaderGet HeaderAcceptEncoding) res with
        | .error e => (r.1, .error e)
        | .ok res' => (r.1, .ok res')

/-! ## Go slices and the middleware accumulation (natsmicromw.go,
`Service.WithMiddleware` / `Group.WithMiddleware`)

`WithMiddleware` builds the child's chain as `append(s.mw, fns...)`.  Go's
`append` re-uses the receiver's underlying array whenever its capacity
suffices (guaranteed by the Go language specification) and only otherwise
allocates a new one; the gc runtime grows small slices by doubling.  To
settle whether the chains are inherited by value, slices are modelled at
that level: a heap of backing arrays, and slice headers carrying array id,
length and capacity.  Middleware function values are identified by `Nat`
labels. -/

/-- A Go slice header: backing array id, length, capacity (all slices here
have offset 0). -/
structure GoSlice where
  arr : Nat
  len : Nat
  cap : Nat
deriving DecidableEq, Repr

/-- The heap of backing arrays; each array stores its written cells. -/
structure GoHeap where
  arrays : List (List Nat)
deriving DecidableEq, Repr

def heapGet (h : GoHeap) (i : Nat) : List Nat := h.arrays.getD i []

def heapSet (h : GoHeap) (i : Nat) (xs : List Nat) : GoHeap := ⟨h.arrays.set i xs⟩

/-- The elements a slice views: the first `len` cells of its array. -/
def sliceView (h : GoHeap) (s : GoSlice) : List Nat := (heapGet h s.arr).take s.len

/-- The gc runtime's growth for small slices: double the capacity, or take
the needed length if doubling does not reach it. -/
def goGrowCap (oldCap needed : Nat) : Nat := max needed (2 * oldCap)

/-- Go `append(s, xs...)`: when `len(s) + len(xs) ≤ cap(s)` the backing
array is re-used and the new elements are written in place after the first
`len(s)` cells (the language-specified behavior); otherwise a new array is
allocated with the grown capacity. -/
def goAppend (h : GoHeap) (s : GoSlice) (xs : List Nat) : GoHeap × GoSlice :=
  let needed := s.len + xs.length
  if needed ≤ s.cap then
    (heapSet h s.arr ((heapGet h s.arr).take s.len ++ xs), ⟨s.arr, needed, s.cap⟩)
  else
    (⟨h.arrays ++ [sliceView h s ++ xs]⟩, ⟨h.arrays.length, needed, goGrowCap s.cap needed⟩)

/-- The middleware-accumulation state of a `Service` (or of a `Group`'s
embedded service): the `mw` slice of middleware function values. -/
structure ServiceMw where
  mw : GoSlice
deriving DecidableEq, Repr

/-- `Service.WithMiddleware` / `Use` (and identically
`Group.WithMiddleware` / `Use`): the derived service's chain is
`append(s.mw, fns...)`. -/
def ServiceMw.withMiddleware (h : GoHeap) (s : ServiceMw) (fns : List Nat) :
    GoHeap × ServiceMw :=
  let r := goAppend h s.mw fns
  (r.1, ⟨r.2⟩)

/-! ## Instrumented middleware

To observe execution order, a middleware built from a (pre, post) label
pair emits its pre label, runs the inner handler, and emits its post
label — the shape the composition-order property quantifies over. -/

/-- A plain-flavor middleware with pre-logic `pre` and post-logic `post`. -/
def instrument (pre post : Nat) : MiddlewareFunc :=
  fun next req => pre :: next req ++ [post]

/-- A context-flavor middleware with pre-logic `pre` and post-logic
`post`, passing the inner handler's error through. -/
def instrumentCtx (pre post : Nat) : ContextMiddlewareFunc :=
  fun next req => (pre :: (next req).1 ++ [post], (next req).2)

theorem wrapHandler_instrument_trace (ps : List (Nat × Nat)) (h : Handler)
    (req : MicroMsg) :
    wrapHandler h (ps.map fun p => instrument p.1 p.2) req
      = ps.map Prod.fst ++ h req ++ (ps.map Prod.snd).reverse := by
  induction ps with
  | nil => simp [wrapHandler]
  | cons p ps ih =>
    simp only [List.map_cons, wrapHandler_cons, instrument, List.reverse_cons, ih]
    simp [List.append_assoc]

theorem chainContextMiddleware_instrument_trace (ps : List (Nat × Nat))
    (h : ContextHandlerFunc) (req : Request) :
    chainContextMiddleware (ps.map fun p => instrumentCtx p.1 p.2) h req
      = (ps.map Prod.fst ++ (h req).1 ++ (ps.map Prod.snd).reverse, (h req).2) := by
  induction ps with
  | nil => simp [chainContextMiddleware]
  | cons p ps ih =>
    simp only [List.map_cons, chainContextMiddleware_cons, instrumentCtx,
      List.reverse_cons, ih]
    simp [List.append_assoc]

/-- C1: for a terminal handler and middleware `[m0, …, m(n-1)]` in
registration order, the composed handler produced by the right-to-left
fold (`wrapHandler`; the fold inside `wrapContextHandler`) runs m0's
pre-logic first, …, m(n-1)'s pre-logic, the terminal handler, then the
post-logics in exact reverse order, the first-registered middleware being
the outermost wrapper — in both flavors. -/
theorem C1_composition_order (ps : List (Nat × Nat)) (h : Handler)
    (hc : ContextHandlerFunc) (req : MicroMsg) (creq : Request) :
    wrapHandler h (ps.map fun p => instrument p.1 p.2) req
      = ps.map Prod.fst ++ h req ++ (ps.map Prod.snd).reverse
  ∧ chainContextMiddleware (ps.map fun p => instrumentCtx p.1 p.2) hc creq
      = (ps.map Prod.fst ++ (hc creq).1 ++ (ps.map Prod.snd).reverse, (hc creq).2) :=
  ⟨wrapHandler_instrument_trace ps h req,
   chainContextMiddleware_instrument_trace ps hc creq⟩

/-- C2: composing a terminal handler with the empty middleware sequence
yields the terminal handler itself, as a function and pointwise on every
request, in both flavors. -/
theorem C2_empty_chain_identity (h : Handler) (hc : ContextHandlerFunc)
    (req : MicroMsg) (creq : Request) :
    wrapHandler h [] = h ∧ wrapHandler h [] req = h req
  ∧ chainContextMiddleware [] hc = hc
  ∧ chainContextMiddleware [] hc creq = hc creq :=
  ⟨rfl, rfl, rfl, rfl⟩

/-- Witness for C1: with middleware [A, B] = [(1, 2), (3, 4)] and a
terminal handler emitting 0, both flavors observe A-pre, B-pre, handler,
B-post, A-post: the trace [1, 3, 0, 4, 2]. -/
theorem C1_composition_order_witness :
    wrapHandler (fun _ => [0]) ([(1, 2), (3, 4)].map fun p => instrument p.1 p.2)
        ⟨"s", "", none, []⟩
      = [1, 3, 0, 4, 2]
  ∧ chainContextMiddleware ([(1, 2), (3, 4)].map fun p => instrumentCtx p.1 p.2)
        (fun _ => ([0], none)) ⟨⟨"s", "", none, []⟩, ⟨0⟩⟩
      = ([1, 3, 0, 4, 2], none) := by
  have h := C1_composition_order [(1, 2), (3, 4)] (fun _ => [0])
    (fun _ => ([0], none)) ⟨"s", "", none, []⟩ ⟨⟨"s", "", none, []⟩, ⟨0⟩⟩
  exact ⟨by rw [h.1]; rfl, by rw [h.2]; rfl⟩

/-- Witness for C2: a concrete echo-style handler wrapped in zero
middleware behaves exactly as the handler, in both flavors. -/
theorem C2_empty_chain_identity_witness :
    wrapHandler (fun m => m.data) [] ⟨"s", "", none, [7]⟩ = [7]
  ∧ chainContextMiddleware [] (fun r => (r.request.data, none))
      ⟨⟨"s", "", none, [7]⟩, ⟨0⟩⟩ = ([7], none) := by
  have h := C2_empty_chain_identity (fun m => m.data)
    (fun r => (r.request.data, none)) ⟨"s", "", none, [7]⟩
    ⟨⟨"s", "", none, [7]⟩, ⟨0⟩⟩
  exact ⟨h.2.1.trans rfl, h.2.2.2.trans rfl⟩

/-- C3: when the composed context-handler chain returns a non-nil error,
the dispatcher reports a structured `HandlerError`'s (description, code)
verbatim and wraps any other error as (its message, "500"), delivering
code, description and the compact JSON body (`description` field first,
no whitespace) on the three channels of `req.Error`. -/
theorem C3_error_normalization (s : Service) (handler : ContextHandlerFunc)
    (req : MicroMsg) (tr : List Nat) (e : GoErr)
    (hrun : chainContextMiddleware s.cmw handler ⟨req, serviceContext s⟩ = (tr, some e)) :
    wrapContextHandler s handler req
      = (tr, some ⟨(normalizeError e).2, (normalizeError e).1,
          marshalHandlerError (normalizeError e).1 (normalizeError e).2⟩)
  ∧ (∀ d c, normalizeError (.handlerError d c) = (d, c))
  ∧ (∀ m, normalizeError (.plain m) = (m, "500")) := by
  refine ⟨?_, fun d c => rfl, fun m => rfl⟩
  simp only [wrapContextHandler, hrun]

/-- Witness for C3: a handler failing with the plain message
"request failed" is reported with code channel `"500"`, description
channel `"request failed"`, and the exact payload
`{"description":"request failed","code":"500"}`. -/
theorem C3_error_normalization_witness :
    chainContextMiddleware (Service.mk [] none).cmw
        (fun _ => ([], some (.plain "request failed")))
        ⟨⟨"subj", "", none, []⟩, serviceContext ⟨[], none⟩⟩
      = ([], some (.plain "request failed"))
  ∧ wrapContextHandler ⟨[], none⟩ (fun _ => ([], some (.plain "request failed")))
        ⟨"subj", "", none, []⟩
      = ([], some ⟨"500", "request failed",
          "\x7b\"description\":\"request failed\",\"code\":\"500\"\x7d"⟩) := by
  refine ⟨rfl, ?_⟩
  have h := (C3_error_normalization ⟨[], none⟩
    (fun _ => ([], some (.plain "request failed"))) ⟨"subj", "", none, []⟩
    [] (.plain "request failed") rfl).1
  rw [h]
  rfl

/-! ## Helper lemmas for the compression middleware -/

theorem string_length_pos (s : String) (h : s ≠ "") : 0 < s.length := by
  cases s with
  | mk data =>
    cases data with
    | nil => exact absurd rfl h
    | cons c cs => simp [String.length]

theorem decompressGzip_compressGzip (d : List Nat) :
    decompressGzip (compressGzip d) = .ok d := rfl

theorem decompressDeflate_compressDeflate (d : List Nat) :
    decompressDeflate (compressDeflate d) = .ok d := rfl

theorem mapLookup_mapSet (m : HeaderMap) (k : String) (vs : List String) :
    mapLookup (mapSet m k vs) k = some vs := by
  induction m with
  | nil => simp [mapSet, mapLookup]
  | cons e rest ih =>
    obtain ⟨k', vs'⟩ := e
    by_cases h : k' = k
    · simp [mapSet, mapLookup, h]
    · simp [mapSet, mapLookup, h, ih]

theorem headerGet_headerSet_reply (r : MicroReply) (k v : String) :
    (r.HeaderSet k v).HeaderGet k = v := by
  simp [MicroReply.HeaderSet, MicroReply.HeaderGet, headerGet, mapLookup_mapSet]

theorem decompressRequest_noEncoding (req : MicroRequest)
    (h : req.HeaderGet HeaderEncoding = "") : decompressRequest req = .ok req := by
  simp [decompressRequest, readCompressedData, h]

/-- C4: a reply strictly below the minimum-size threshold (default 1000,
the per-invocation reading of the global being the `cmin` argument) is
returned by `compressReply` byte-for-byte unchanged, whatever encoding was
requested, so its `encoding` header also stays as it was. -/
theorem C4_below_threshold_no_compression (cmin : Nat) (accept : String)
    (reply : MicroReply) (hlen : reply.Data.length < cmin) :
    compressReply cmin accept reply = .ok reply ∧ compressMin = 1000 := by
  refine ⟨?_, rfl⟩
  simp [compressReply, hlen]

/-- Witness for C4: a 10-byte reply with `accept-encoding: gzip` under the
default threshold is untouched and its `encoding` header stays absent. -/
theorem C4_below_threshold_no_compression_witness :
    (MicroReply.mk (some []) (List.replicate 10 7)).Data.length < compressMin
  ∧ (compressReply compressMin "gzip" ⟨some [], List.replicate 10 7⟩
        = .ok ⟨some [], List.replicate 10 7⟩ ∧ compressMin = 1000)
  ∧ (MicroReply.mk (some []) (List.replicate 10 7)).HeaderGet HeaderEncoding = "" :=
  ⟨by decide, C4_below_threshold_no_compression compressMin "gzip" _ (by decide), rfl⟩

/-- C5: an unrecognized non-empty `encoding` header, or a gzip/deflate
declaration whose payload fails to decode, makes the compression
middleware return the corresponding error with the next link never run
(the result holds for every `next`, with an empty trace); an empty
`encoding` header passes the payload through unchanged. -/
theorem C5_inbound_short_circuit (cmin : Nat) (req : MicroRequest)
    (next : MicroHandlerFunc) (e : GoErr) :
    (req.HeaderGet HeaderEncoding ≠ "" → req.HeaderGet HeaderEncoding ≠ "gzip" →
     req.HeaderGet HeaderEncoding ≠ "deflate" →
      CompressionMiddleware cmin next req = ([], .error .unsupportedEncoding))
  ∧ (req.HeaderGet HeaderEncoding = "gzip" → decompressGzip req.Data = .error e →
      CompressionMiddleware cmin next req = ([], .error e))
  ∧ (req.HeaderGet HeaderEncoding = "deflate" → decompressDeflate req.Data = .error e →
      CompressionMiddleware cmin next req = ([], .error e))
  ∧ (req.HeaderGet HeaderEncoding = "" → decompressRequest req = .ok req) := by
  refine ⟨fun h1 h2 h3 => ?_, fun h1 h2 => ?_, fun h1 h2 => ?_,
    fun h1 => decompressRequest_noEncoding req h1⟩
  · simp [CompressionMiddleware, decompressRequest, readCompressedData, h1, h2, h3,
      string_length_pos _ h1]
  · simp [CompressionMiddleware, decompressRequest, readCompressedData, h1, h2]
  · simp [CompressionMiddleware, decompressRequest, readCompressedData, h1, h2]

/-- Witness for C5: `encoding: bzip2` short-circuits with the
unsupported-encoding error, a corrupt gzip payload short-circuits with the
decode error (in both cases no trace of the next link appears), and an
absent `encoding` header leaves the request unchanged. -/
theorem C5_inbound_short_circuit_witness :
    (MicroRequest.HeaderGet ⟨"s", "", some [("encoding", ["bzip2"])], [1, 2, 3], ⟨0⟩⟩
        HeaderEncoding ≠ ""
     ∧ CompressionMiddleware 1000 (fun r => ([9], .ok ⟨some [], r.Data⟩))
          ⟨"s", "", some [("encoding", ["bzip2"])], [1, 2, 3], ⟨0⟩⟩
        = ([], .error .unsupportedEncoding))
  ∧ (decompressGzip [0, 1] = .error .gzipInvalidHeader
     ∧ CompressionMiddleware 1000 (fun r => ([9], .ok ⟨some [], r.Data⟩))
          ⟨"s", "", some [("encoding", ["gzip"])], [0, 1], ⟨0⟩⟩
        = ([], .error .gzipInvalidHeader))
  ∧ decompressRequest ⟨"s", "", none, [1, 2, 3], ⟨0⟩⟩
      = .ok ⟨"s", "", none, [1, 2, 3], ⟨0⟩⟩ :=
  ⟨⟨by decide,
    (C5_inbound_short_circuit 1000 _ _ .unsupportedEncoding).1
      (by decide) (by decide) (by decide)⟩,
   ⟨rfl,
    (C5_inbound_short_circuit 1000 _ _ .gzipInvalidHeader).2.1 rfl rfl⟩,
   (C5_inbound_short_circuit 1000 ⟨"s", "", none, [1, 2, 3], ⟨0⟩⟩
      (fun r => ([9], .ok ⟨some [], r.Data⟩)) .unsupportedEncoding).2.2.2 rfl⟩

/-- C6: compression is a per-direction round-trip driven by two
independent headers.  Inbound, for each codec: a request whose payload is
the gzip (resp. deflate) compression of some original bytes and declares
`encoding: gzip` (resp. `deflate`) is decoded so that the next link
receives exactly the original bytes.  Outbound, for each codec: for a
reply at or above the threshold, the codec is chosen solely by the
original request's `accept-encoding` header — `gzip` or `deflate`,
independently of whichever codec the inbound direction used — the reply's
`encoding` header is set to that value, and the matching decoder
reproduces the handler's reply bytes exactly. -/
theorem C6_compression_roundtrip (cmin : Nat) (orig : List Nat)
    (req : MicroRequest) (next : MicroHandlerFunc) (tr : List Nat)
    (reply : MicroReply) :
    (req.HeaderGet HeaderEncoding = "gzip" → req.Data = compressGzip orig →
      decompressRequest req = .ok { req with Data := orig })
  ∧ (req.HeaderGet HeaderEncoding = "deflate" → req.Data = compressDeflate orig →
      decompressRequest req = .ok { req with Data := orig })
  ∧ (decompressRequest req = .ok { req with Data := orig } →
     next { req with Data := orig } = (tr, .ok reply) →
     cmin ≤ reply.Data.length →
      (req.HeaderGet HeaderAcceptEncoding = "gzip" →
        CompressionMiddleware cmin next req
          = (tr, .ok (({ reply with Data := compressGzip reply.Data }).HeaderSet
              HeaderEncoding "gzip"))
        ∧ decompressGzip (compressGzip reply.Data) = .ok reply.Data
        ∧ (({ reply with Data := compressGzip reply.Data }).HeaderSet
              HeaderEncoding "gzip").HeaderGet HeaderEncoding = "gzip")
      ∧ (req.HeaderGet HeaderAcceptEncoding = "deflate" →
        CompressionMiddleware cmin next req
          = (tr, .ok (({ reply with Data := compressDeflate reply.Data }).HeaderSet
              HeaderEncoding "deflate"))
        ∧ decompressDeflate (compressDeflate reply.Data) = .ok reply.Data
        ∧ (({ reply with Data := compressDeflate reply.Data }).HeaderSet
              HeaderEncoding "deflate").HeaderGet HeaderEncoding = "deflate")) := by
  refine ⟨fun henc hdata => ?_, fun henc hdata => ?_,
    fun hdec hnext hlen => ⟨fun haccept => ?_, fun haccept => ?_⟩⟩
  · simp [decompressRequest, readCompressedData, henc, hdata,
      decompressGzip_compressGzip]
  · simp [decompressRequest, readCompressedData, henc, hdata,
      decompressDeflate_compressDeflate]
  · have hacc : ({ req with Data := orig } : MicroRequest).HeaderGet
        HeaderAcceptEncoding = "gzip" := haccept
    refine ⟨?_, decompressGzip_compressGzip reply.Data,
      headerGet_headerSet_reply _ _ _⟩
    simp [CompressionMiddleware, hdec, hnext, hacc, compressReply,
      Nat.not_lt.mpr hlen]
  · have hacc : ({ req with Data := orig } : MicroRequest).HeaderGet
        HeaderAcceptEncoding = "deflate" := haccept
    refine ⟨?_, decompressDeflate_compressDeflate reply.Data,
      headerGet_headerSet_reply _ _ _⟩
    simp [CompressionMiddleware, hdec, hnext, hacc, compressReply,
      Nat.not_lt.mpr hlen]

/-- Witness for C6: both mismatched codec pairings on a 2000-byte payload.
A gzip-compressed request with `accept-encoding: deflate` is gzip-decoded,
echoed, and the reply deflate-compressed with `encoding: deflate`; a
deflate-compressed request with `accept-encoding: gzip` is deflate-decoded,
echoed, and the reply gzip-compressed with `encoding: gzip`; each reply
decodes back to the echoed bytes with the matching decoder. -/
theorem C6_compression_roundtrip_witness :
    compressMin ≤ (MicroReply.mk (some []) (List.replicate 2000 65)).Data.length
  ∧ decompressRequest ⟨"s", "",
        some [("encoding", ["gzip"]), ("accept-encoding", ["deflate"])],
        compressGzip (List.replicate 2000 65), ⟨0⟩⟩
      = .ok ⟨"s", "",
          some [("encoding", ["gzip"]), ("accept-encoding", ["deflate"])],
          List.replicate 2000 65, ⟨0⟩⟩
  ∧ CompressionMiddleware compressMin (fun r => ([1], .ok ⟨some [], r.Data⟩))
        ⟨"s", "", some [("encoding", ["gzip"]), ("accept-encoding", ["deflate"])],
          compressGzip (List.replicate 2000 65), ⟨0⟩⟩
      = ([1], .ok ((MicroReply.mk (some [])
          (compressDeflate (List.replicate 2000 65))).HeaderSet
            HeaderEncoding "deflate"))
  ∧ decompressDeflate (compressDeflate (List.replicate 2000 65))
      = .ok (List.replicate 2000 65)
  ∧ ((MicroReply.mk (some []) (compressDeflate (List.replicate 2000 65))).HeaderSet
        HeaderEncoding "deflate").HeaderGet HeaderEncoding = "deflate"
  ∧ decompressRequest ⟨"s", "",
        some [("encoding", ["deflate"]), ("accept-encoding", ["gzip"])],
        compressDeflate (List.replicate 2000 65), ⟨0⟩⟩
      = .ok ⟨"s", "",
          some [("encoding", ["deflate"]), ("accept-encoding", ["gzip"])],
          List.replicate 2000 65, ⟨0⟩⟩
  ∧ CompressionMiddleware compressMin (fun r => ([1], .ok ⟨some [], r.Data⟩))
        ⟨"s", "", some [("encoding", ["deflate"]), ("accept-encoding", ["gzip"])],
          compressDeflate (List.replicate 2000 65), ⟨0⟩⟩
      = ([1], .ok ((MicroReply.mk (some [])
          (compressGzip (List.replicate 2000 65))).HeaderSet
            HeaderEncoding "gzip"))
  ∧ decompressGzip (compressGzip (List.replicate 2000 65))
      = .ok (List.replicate 2000 65)
  ∧ ((MicroReply.mk (some []) (compressGzip (List.replicate 2000 65))).HeaderSet
        HeaderEncoding "gzip").HeaderGet HeaderEncoding = "gzip" := by
  have h1 := C6_compression_roundtrip compressMin (List.replicate 2000 65)
    ⟨"s", "", some [("encoding", ["gzip"]), ("accept-encoding", ["deflate"])],
      compressGzip (List.replicate 2000 65), ⟨0⟩⟩
    (fun r => ([1], .ok ⟨some [], r.Data⟩)) [1] ⟨some [], List.replicate 2000 65⟩
  have h2 := C6_compression_roundtrip compressMin (List.replicate 2000 65)
    ⟨"s", "", some [("encoding", ["deflate"]), ("accept-encoding", ["gzip"])],
      compressDeflate (List.replicate 2000 65), ⟨0⟩⟩
    (fun r => ([1], .ok ⟨some [], r.Data⟩)) [1] ⟨some [], List.replicate 2000 65⟩
  have hdec1 := h1.1 rfl rfl
  have hdec2 := h2.2.1 rfl rfl
  have d1 := (h1.2.2 hdec1 rfl (by norm_num [compressMin, List.length_replicate])).2 rfl
  have d2 := (h2.2.2 hdec2 rfl (by norm_num [compressMin, List.length_replicate])).1 rfl
  exact ⟨by norm_num [compressMin, List.length_replicate], hdec1, d1.1, d1.2.1, d1.2.2,
    hdec2, d2.1, d2.2.1, d2.2.2⟩

/-- C9: when the originating request's `accept-encoding` header holds a
non-empty value other than gzip or deflate, a reply at or above the
threshold is returned untouched — payload unchanged, headers unchanged,
no error — even though that same value in the inbound `encoding` header
is a fatal unsupported-encoding error. -/
theorem C9_unknown_accept_ignored (cmin : Nat) (req : MicroRequest)
    (next : MicroHandlerFunc) (tr : List Nat) (reply : MicroReply)
    (henc : req.HeaderGet HeaderEncoding = "")
    (h1 : req.HeaderGet HeaderAcceptEncoding ≠ "")
    (h2 : req.HeaderGet HeaderAcceptEncoding ≠ "gzip")
    (h3 : req.HeaderGet HeaderAcceptEncoding ≠ "deflate")
    (hnext : next req = (tr, .ok reply))
    (hlen : cmin ≤ reply.Data.length) :
    CompressionMiddleware cmin next req = (tr, .ok reply)
  ∧ readCompressedData (req.HeaderGet HeaderAcceptEncoding) reply.Data
      = .error .unsupportedEncoding := by
  constructor
  · simp [CompressionMiddleware, decompressRequest_noEncoding req henc, hnext,
      compressReply, Nat.not_lt.mpr hlen, h1, h2, h3]
  · simp [readCompressedData, h1, h2, h3, string_length_pos _ h1]

/-- Witness for C9: `accept-encoding: bzip2` on a reply at the threshold
leaves the reply exactly as the handler produced it, no error — while
`bzip2` as an inbound `encoding` value is the unsupported-encoding
error. -/
theorem C9_unknown_accept_ignored_witness :
    CompressionMiddleware 1 (fun r => ([2], .ok ⟨some [], r.Data⟩))
        ⟨"s", "", some [("accept-encoding", ["bzip2"])], [1], ⟨0⟩⟩
      = ([2], .ok ⟨some [], [1]⟩)
  ∧ readCompressedData "bzip2" [1] = .error .unsupportedEncoding := by
  have h := C9_unknown_accept_ignored 1
    ⟨"s", "", some [("accept-encoding", ["bzip2"])], [1], ⟨0⟩⟩
    (fun r => ([2], .ok ⟨some [], r.Data⟩)) [2] ⟨some [], [1]⟩
    rfl (by decide) (by decide) (by decide) rfl (by decide)
  exact ⟨h.1, h.2⟩

/-- C7: `WithContext` on both envelope types returns a new value whose
`Context` is exactly the attached context while sharing the receiver's
subject, reply-to, headers and payload; the receiver's own fields are
untouched (the derived value is built purely from them), so the original's
context stays what it was, and two values derived from the same original
with different contexts each read back exactly their own. -/
theorem C7_with_context_isolation (r : Request) (mr : MicroRequest)
    (c c1 c2 : GoContext) :
    ((r.WithContext c).Context = c ∧ (r.WithContext c).request = r.request
      ∧ r.Context = r.ctx
      ∧ (r.WithContext c1).Context = c1 ∧ (r.WithContext c2).Context = c2
      ∧ (c1 ≠ c2 → (r.WithContext c1).Context ≠ (r.WithContext c2).Context))
  ∧ ((mr.WithContext c).Context = c
      ∧ (mr.WithContext c).Subject = mr.Subject
      ∧ (mr.WithContext c).Reply = mr.Reply
      ∧ (mr.WithContext c).Headers = mr.Headers
      ∧ (mr.WithContext c).Data = mr.Data
      ∧ mr.Context = mr.ctx
      ∧ (mr.WithContext c1).Context = c1 ∧ (mr.WithContext c2).Context = c2
      ∧ (c1 ≠ c2 → (mr.WithContext c1).Context ≠ (mr.WithContext c2).Context)) :=
  ⟨⟨rfl, rfl, rfl, rfl, rfl, fun h => h⟩,
   ⟨rfl, rfl, rfl, rfl, rfl, rfl, rfl, rfl, fun h => h⟩⟩

/-- Witness for C7: two envelopes derived from one original with contexts
1 and 2 read back 1 and 2 respectively, and those differ. -/
theorem C7_with_context_isolation_witness :
    ((Request.mk ⟨"s", "", none, [1]⟩ ⟨0⟩).WithContext ⟨1⟩).Context = ⟨1⟩
  ∧ ((Request.mk ⟨"s", "", none, [1]⟩ ⟨0⟩).WithContext ⟨2⟩).Context = ⟨2⟩
  ∧ ((Request.mk ⟨"s", "", none, [1]⟩ ⟨0⟩).WithContext ⟨1⟩).Context
      ≠ ((Request.mk ⟨"s", "", none, [1]⟩ ⟨0⟩).WithContext ⟨2⟩).Context
  ∧ ((MicroRequest.mk "s" "" none [1] ⟨0⟩).WithContext ⟨1⟩).Context
      ≠ ((MicroRequest.mk "s" "" none [1] ⟨0⟩).WithContext ⟨2⟩).Context := by
  have h := C7_with_context_isolation (Request.mk ⟨"s", "", none, [1]⟩ ⟨0⟩)
    (MicroRequest.mk "s" "" none [1] ⟨0⟩) ⟨1⟩ ⟨1⟩ ⟨2⟩
  exact ⟨h.1.2.2.2.1, h.1.2.2.2.2.1, h.1.2.2.2.2.2 (by decide),
    h.2.2.2.2.2.2.2.2.2 (by decide)⟩

/-- C10: with a nil header map, every header accessor on `MicroRequest`
and `MicroReply` is total: `HeaderGet` returns the empty string,
`HeaderValues` returns no values, `HeaderDel` is a no-op, and
`HeaderAdd` / `HeaderSet` allocate a fresh map holding exactly the new
entry, leaving the envelope with a non-nil header map. -/
theorem C10_nil_header_accessors_total (subj rep : String) (d d' : List Nat)
    (c : GoContext) (k v : String) :
    (MicroRequest.HeaderGet ⟨subj, rep, none, d, c⟩ k = ""
      ∧ MicroRequest.HeaderValues ⟨subj, rep, none, d, c⟩ k = []
      ∧ MicroRequest.HeaderDel ⟨subj, rep, none, d, c⟩ k = ⟨subj, rep, none, d, c⟩
      ∧ MicroRequest.HeaderAdd ⟨subj, rep, none, d, c⟩ k v
          = ⟨subj, rep, some [(k, [v])], d, c⟩
      ∧ MicroRequest.HeaderSet ⟨subj, rep, none, d, c⟩ k v
          = ⟨subj, rep, some [(k, [v])], d, c⟩
      ∧ (MicroRequest.HeaderAdd ⟨subj, rep, none, d, c⟩ k v).Headers ≠ none
      ∧ (MicroRequest.HeaderSet ⟨subj, rep, none, d, c⟩ k v).Headers ≠ none)
  ∧ (MicroReply.HeaderGet ⟨none, d'⟩ k = ""
      ∧ MicroReply.HeaderValues ⟨none, d'⟩ k = []
      ∧ MicroReply.HeaderDel ⟨none, d'⟩ k = ⟨none, d'⟩
      ∧ MicroReply.HeaderAdd ⟨none, d'⟩ k v = ⟨some [(k, [v])], d'⟩
      ∧ MicroReply.HeaderSet ⟨none, d'⟩ k v = ⟨some [(k, [v])], d'⟩
      ∧ (MicroReply.HeaderAdd ⟨none, d'⟩ k v).Headers ≠ none
      ∧ (MicroReply.HeaderSet ⟨none, d'⟩ k v).Headers ≠ none) :=
  ⟨⟨rfl, rfl, rfl, rfl, rfl, Option.some_ne_none _, Option.some_ne_none _⟩,
   ⟨rfl, rfl, rfl, rfl, rfl, Option.some_ne_none _, Option.some_ne_none _⟩⟩

/-- Witness for C10: concrete nil-header envelopes evaluated through the
accessors. -/
theorem C10_nil_header_accessors_total_witness :
    MicroRequest.HeaderGet ⟨"s", "", none, [1], ⟨0⟩⟩ "k" = ""
  ∧ MicroRequest.HeaderAdd ⟨"s", "", none, [1], ⟨0⟩⟩ "k" "v"
      = ⟨"s", "", some [("k", ["v"])], [1], ⟨0⟩⟩
  ∧ MicroReply.HeaderValues ⟨none, [2]⟩ "k" = []
  ∧ MicroReply.HeaderSet ⟨none, [2]⟩ "k" "v" = ⟨some [("k", ["v"])], [2]⟩ := by
  have h := C10_nil_header_accessors_total "s" "" [1] [2] ⟨0⟩ "k" "v"
  exact ⟨h.1.1, h.1.2.2.2.1, h.2.2.1, h.2.2.2.2.1⟩

/-- C8, evaluated at a concrete derivation trace: the claim that middleware
chains are inherited by value fails on the code.  `WithMiddleware` builds
the child chain with `append(s.mw, fns...)`; Go re-uses the parent's
backing array when its capacity suffices, so after
`s3 := s.Use(1).Use(2).Use(3)` (length 3, capacity 4 under the gc
runtime's doubling growth) the two sibling derivations
`c1 := s3.Use(4)` and `c2 := s3.Use(5)` write the same backing cell:
deriving `c2` changes `c1`'s chain from `[1, 2, 3, 4]` to `[1, 2, 3, 5]`,
so `c1`'s chain is no longer its parent's chain extended by only `c1`'s
addition. -/
theorem C8_sibling_overwrites_child_chain :
    (ServiceMw.withMiddleware (ServiceMw.withMiddleware
        (ServiceMw.withMiddleware ⟨[]⟩ ⟨⟨0, 0, 0⟩⟩ [1]).1
        (ServiceMw.withMiddleware ⟨[]⟩ ⟨⟨0, 0, 0⟩⟩ [1]).2 [2]).1
      (ServiceMw.withMiddleware (ServiceMw.withMiddleware ⟨[]⟩ ⟨⟨0, 0, 0⟩⟩ [1]).1
        (ServiceMw.withMiddleware ⟨[]⟩ ⟨⟨0, 0, 0⟩⟩ [1]).2 [2]).2 [3])
      = (⟨[[1], [1, 2], [1, 2, 3]]⟩, ⟨⟨2, 3, 4⟩⟩)
  ∧ ServiceMw.withMiddleware ⟨[[1], [1, 2], [1, 2, 3]]⟩ ⟨⟨2, 3, 4⟩⟩ [4]
      = (⟨[[1], [1, 2], [1, 2, 3, 4]]⟩, ⟨⟨2, 4, 4⟩⟩)
  ∧ sliceView ⟨[[1], [1, 2], [1, 2, 3, 4]]⟩ ⟨2, 4, 4⟩ = [1, 2, 3, 4]
  ∧ ServiceMw.withMiddleware ⟨[[1], [1, 2], [1, 2, 3, 4]]⟩ ⟨⟨2, 3, 4⟩⟩ [5]
      = (⟨[[1], [1, 2], [1, 2, 3, 5]]⟩, ⟨⟨2, 4, 4⟩⟩)
  ∧ sliceView ⟨[[1], [1, 2], [1, 2, 3, 5]]⟩ ⟨2, 4, 4⟩ = [1, 2, 3, 5]
  ∧ sliceView ⟨[[1], [1, 2], [1, 2, 3, 5]]⟩ ⟨2, 4, 4⟩
      ≠ sliceView ⟨[[1], [1, 2], [1, 2, 3]]⟩ ⟨2, 3, 4⟩ ++ [4]
  ∧ sliceView ⟨[[1], [1, 2], [1, 2, 3, 5]]⟩ ⟨2, 3, 4⟩ = [1, 2, 3] := by
  refine ⟨by decide, by decide, by decide, by decide, by decide, by decide, by decide⟩

end Natsmicromw
